import Mathlib

/-!
Shallow embedding of `mimic/canned_responses/loadbalancer.py`: the canned
load-balancer lifecycle simulation (in-memory store, time-driven status
reconciliation, and node CRUD).

Conventions of the embedding:
* Synthetic timestamps are `Nat` seconds.  The Python code stores formatted
  time strings (`datetime.utcfromtimestamp(...).strftime(fmt)`) and the helper
  `seconds_since` parses them back; the round trip is the identity on the
  second count, so the embedding keeps the raw number.
* Python dicts keyed by an id are association lists (`aset` assigns a key the
  way dict assignment does: replace in place, or append when new; `aremove`
  is `del`).
* An uncaught Python exception (a `KeyError` on a record that was purged from
  the store mid-call) surfaces as `Except.error`.
* `randrange` id generation is threaded as an explicit generator `Nat → Nat`
  applied to the position in the batch, keeping the functions deterministic;
  no claim depends on the generated values.
* Constant-valued presentation fields of the record (`cluster`, `virtualIps`,
  `sourceAddresses`, `contentCaching`) are fixed literals in the source and
  are omitted from the record structure; every caller-dependent or
  claim-relevant field is kept.
-/

namespace MimicLB

/-- Association-list lookup, mirroring Python dict indexing (`d[k]` /
`k in d` / `d.get(k)`). -/
def alookup {κ α : Type} [DecidableEq κ] (k : κ) : List (κ × α) → Option α
  | [] => none
  | (k1, v) :: t => if k1 = k then some v else alookup k t

/-- Association-list assignment, mirroring Python dict assignment `d[k] = v`:
replaces the first binding of `k` in place, appends when absent. -/
def aset {κ α : Type} [DecidableEq κ] (k : κ) (v : α) : List (κ × α) → List (κ × α)
  | [] => [(k, v)]
  | (k1, v1) :: t => if k1 = k then (k, v) :: t else (k1, v1) :: aset k v t

/-- Association-list removal, mirroring Python `del d[k]`. -/
def aremove {κ α : Type} [DecidableEq κ] (k : κ) : List (κ × α) → List (κ × α)
  | [] => []
  | (k1, v1) :: t => if k1 = k then t else (k1, v1) :: aremove k t

/-- The status strings the source ever assigns to a load balancer record. -/
inductive Status where
  | BUILD
  | ACTIVE
  | PENDING_UPDATE
  | PENDING_DELETE
  | DELETED
  | ERROR
  | DELETING_NOW
deriving DecidableEq, Repr

/-- Rendering of a status back to the string of the source, used in the
immutable-resource error message. -/
def Status.toStr : Status → String
  | .BUILD => "BUILD"
  | .ACTIVE => "ACTIVE"
  | .PENDING_UPDATE => "PENDING-UPDATE"
  | .PENDING_DELETE => "PENDING-DELETE"
  | .DELETED => "DELETED"
  | .ERROR => "ERROR"
  | .DELETING_NOW => "DELETING-NOW"

/-- An incoming node of an `addNodes` request body (`address`, `condition` and
`port` are accessed unconditionally; `weight` and `type` by truthiness). -/
structure NodeReq where
  address : String
  condition : String
  port : Nat
  weight : Option Nat
  ntype : Option String
deriving DecidableEq, Repr

/-- A stored node record, as built by `_format_nodes_on_lb`. -/
structure Node where
  address : String
  condition : String
  port : Nat
  weight : Option Nat
  ntype : Option String
  id : Nat
  status : String
deriving DecidableEq, Repr

/-- A formatted metadata entry of the record (`_format_meta` adds a random
`id` to each `{key, value}` pair). -/
structure MetaItem where
  key : String
  value : Nat
  id : Nat
deriving DecidableEq, Repr

/-- The creation request body (`lb_info`).  `Option` marks keys the source
reads with `.get`; metadata values are the numeric flag durations. -/
structure LBInfo where
  name : String
  protocol : String
  port : Option Nat
  algorithm : Option String
  timeout : Option Nat
  httpsRedirect : Option Bool
  halfClosed : Option Bool
  connectionLogging : Option Bool
  nodes : Option (List NodeReq)
  metadata : Option (List (String × Nat))
deriving DecidableEq, Repr

/-- A stored load balancer record (`cache.lbs[lb_id]`).  `nodes = none`
models the `nodes` key being absent from the dict. -/
structure LBRecord where
  name : String
  id : Nat
  protocol : String
  port : Nat
  algorithm : String
  status : Status
  timeout : Nat
  created : Nat
  updated : Nat
  httpsRedirect : Bool
  halfClosed : Bool
  connectionLogging : Bool
  nodes : Option (List Node)
  metadata : Option (List MetaItem)
  tenant_id : String
  nodeCount : Nat
deriving DecidableEq, Repr

/-- The single-item view: the record minus `tenant_id` and `nodeCount`
(`_lb_without_tenant`). -/
structure LBView where
  name : String
  id : Nat
  protocol : String
  port : Nat
  algorithm : String
  status : Status
  timeout : Nat
  created : Nat
  updated : Nat
  httpsRedirect : Bool
  halfClosed : Bool
  connectionLogging : Bool
  nodes : Option (List Node)
  metadata : Option (List MetaItem)
deriving DecidableEq, Repr

/-- The list view of a record: the allowlist of `_prep_for_list`
(the constant `virtualIps` entry omitted per the conventions above). -/
structure LBListItem where
  name : String
  protocol : String
  id : Nat
  port : Nat
  algorithm : String
  status : Status
  timeout : Nat
  created : Nat
  updated : Nat
  nodeCount : Nat
deriving DecidableEq, Repr

/-- Per-load-balancer behavior-flag map (`cache.meta[lb_id]`). -/
abbrev Meta := List (String × Nat)

/-- The two caches of `CLB_Cache`: lb records and behavior-flag maps. -/
structure CLB_Cache where
  lbs : List (Nat × LBRecord)
  meta : List (Nat × Meta)
deriving DecidableEq, Repr

/-- The response payloads the operations build.  `notFound` stands for
`not_found_response(resource)`, `invalid` for `invalid_resource(msg, code)`
(both from `mimic.util.helper`, shapes per §7 of the spec: structured
payloads carrying a message), `empty` for the empty body. -/
inductive Payload where
  | lb (v : LBView)
  | lbList (vs : List LBListItem)
  | nodes (ns : List Node)
  | node (n : Node)
  | notFound (resource : String)
  | invalid (msg : String) (code : Nat)
  | empty
deriving DecidableEq, Repr

/-- Modelled from the spec: `set_resource_status` of `mimic.util.helper` is
not among the provided sources.  Per §4.2 the helper compares the elapsed
synthetic time `now - updated_time` against the duration and yields the
target status exactly when the duration has elapsed (Scenario A of §8: a
5-second build duration elapses exactly at `now = 5`), and nothing
otherwise — the call sites fall back on the current status via `or`. -/
def set_resource_status (updated_time : Nat) (time_delta : Nat) (status : Status)
    (now : Nat) : Option Status :=
  if updated_time + time_delta ≤ now then some status else none

/-- The error value standing for an uncaught Python `KeyError`. -/
def keyError : String := "KeyError"

/-- `cache.lbs[lb_id] = r` (field-level mutation of a stored record). -/
def setLbs (s : CLB_Cache) (lb_id : Nat) (r : LBRecord) : CLB_Cache :=
  { s with lbs := aset lb_id r s.lbs }

/-- `cache.meta[lb_id] = m`. -/
def setMeta (s : CLB_Cache) (lb_id : Nat) (m : Meta) : CLB_Cache :=
  { s with meta := aset lb_id m s.meta }

/-- `_verify_and_update_lb_state(cache, lb_id, set_state, current_timestamp)`:
the lifecycle reconciliation.  Dict accesses on missing keys surface as
`Except.error keyError`. -/
def verify_and_update_lb_state (s : CLB_Cache) (lb_id : Nat) (set_state : Bool)
    (now : Nat) : Except String Unit × CLB_Cache :=
  match alookup lb_id s.lbs with
  | none => (Except.error keyError, s)
  | some r =>
    if r.status = Status.BUILD then
      match alookup lb_id s.meta with
      | none => (Except.error keyError, s)
      | some m =>
        match alookup "lb_building" m with
        | none => (Except.error keyError, s)
        | some v =>
          let d := if v = 0 then 10 else v
          let s1 := setMeta s lb_id (aset "lb_building" d m)
          let st := (set_resource_status r.updated d Status.ACTIVE now).getD Status.BUILD
          (Except.ok (), setLbs s1 lb_id { r with status := st })
    else if r.status = Status.ACTIVE ∧ set_state = true then
      match alookup lb_id s.meta with
      | none => (Except.error keyError, s)
      | some m =>
        let st1 := if (alookup "lb_pending_update" m).isSome then Status.PENDING_UPDATE
          else r.status
        let st2 := if (alookup "lb_pending_delete" m).isSome then Status.PENDING_DELETE
          else st1
        let st3 := if (alookup "lb_error_state" m).isSome then Status.ERROR else st2
        (Except.ok (), setLbs s lb_id { r with status := st3, updated := now })
    else if r.status = Status.PENDING_UPDATE then
      match alookup lb_id s.meta with
      | none => (Except.error keyError, s)
      | some m =>
        match alookup "lb_pending_update" m with
        | none => (Except.ok (), s)
        | some v =>
          let st := (set_resource_status r.updated v Status.ACTIVE now).getD
            Status.PENDING_UPDATE
          (Except.ok (), setLbs s lb_id { r with status := st })
    else if r.status = Status.PENDING_DELETE then
      match alookup lb_id s.meta with
      | none => (Except.error keyError, s)
      | some m =>
        match alookup "lb_pending_delete" m with
        | none => (Except.error keyError, s)
        | some v =>
          let d := if v = 0 then 10 else v
          let s1 := setMeta s lb_id (aset "lb_pending_delete" d m)
          let st := (set_resource_status r.updated d Status.DELETED now).getD
            Status.PENDING_DELETE
          (Except.ok (), setLbs s1 lb_id { r with status := st, updated := now })
    else if r.status = Status.DELETED then
      let st := (set_resource_status r.updated 3600 Status.DELETING_NOW now).getD
        Status.DELETED
      let s1 := setLbs s lb_id { r with status := st }
      if st = Status.DELETING_NOW then (Except.ok (), { s1 with lbs := aremove lb_id s1.lbs })
      else (Except.ok (), s1)
    else
      (Except.ok (), s)

/-- `_format_nodes_on_lb(node_list)`: normalizes the incoming nodes, keeping
`weight` and `type` only when truthy, assigning a generated id and status
`"ONLINE"`. -/
def format_nodes_on_lb (gn : Nat → Nat) (node_list : List NodeReq) : List Node :=
  node_list.enum.map fun p =>
    { address := p.2.address
      condition := p.2.condition
      port := p.2.port
      weight := match p.2.weight with
        | some w => if w = 0 then none else some w
        | none => none
      ntype := match p.2.ntype with
        | some t => if t = "" then none else some t
        | none => none
      id := gn p.1
      status := "ONLINE" }

/-- `_format_meta(metadata_list)`: tags each metadata entry with a generated
id. -/
def format_meta (gm : Nat → Nat) (metadata_list : List (String × Nat)) : List MetaItem :=
  metadata_list.enum.map fun p => { key := p.2.1, value := p.2.2, id := gm p.1 }

/-- `load_balancer_example(lb_info, lb_id, status, current_time)`: the canned
record built at creation.  `tenant_id` and `nodeCount` are filled in
afterwards by `add_load_balancer`, exactly as in the source; here they get
placeholder values.  The `nodes` and `metadata` keys are added only when the
corresponding request field is truthy (present and non-empty). -/
def load_balancer_example (gm gn : Nat → Nat) (lb_info : LBInfo) (lb_id : Nat)
    (status : Status) (current_time : Nat) : LBRecord :=
  { name := lb_info.name
    id := lb_id
    protocol := lb_info.protocol
    port := lb_info.port.getD 80
    algorithm := match lb_info.algorithm with
      | some a => if a = "" then "RANDOM" else a
      | none => "RANDOM"
    status := status
    timeout := lb_info.timeout.getD 30
    created := current_time
    updated := current_time
    httpsRedirect := lb_info.httpsRedirect.getD false
    halfClosed := lb_info.halfClosed.getD false
    connectionLogging := lb_info.connectionLogging.getD false
    nodes := match lb_info.nodes with
      | some (h :: t) => some (format_nodes_on_lb gn (h :: t))
      | _ => none
    metadata := match lb_info.metadata with
      | some (h :: t) => some (format_meta gm (h :: t))
      | _ => none
    tenant_id := ""
    nodeCount := 0 }

/-- The flag map built by `add_load_balancer` from the request metadata list
(`meta.update({each["key"]: each["value"]})` in order). -/
def buildMeta (lb_info : LBInfo) : Meta :=
  match lb_info.metadata with
  | some l => l.foldl (fun m kv => aset kv.1 kv.2 m) []
  | none => []

/-- `_lb_without_tenant(cache, lb_id)` applied to a record: the deep copy
minus `tenant_id` and `nodeCount`. -/
def lb_without_tenant (r : LBRecord) : LBView :=
  { name := r.name
    id := r.id
    protocol := r.protocol
    port := r.port
    algorithm := r.algorithm
    status := r.status
    timeout := r.timeout
    created := r.created
    updated := r.updated
    httpsRedirect := r.httpsRedirect
    halfClosed := r.halfClosed
    connectionLogging := r.connectionLogging
    nodes := r.nodes
    metadata := r.metadata }

/-- `_prep_for_list` applied to one record: the fixed allowlist of fields. -/
def prep_for_list (r : LBRecord) : LBListItem :=
  { name := r.name
    protocol := r.protocol
    id := r.id
    port := r.port
    algorithm := r.algorithm
    status := r.status
    timeout := r.timeout
    created := r.created
    updated := r.updated
    nodeCount := r.nodeCount }

/-- `add_load_balancer(tenant_id, cache, lb_info, lb_id, current_timestamp)`:
stores the flag map and the fresh record (overwriting any existing entry at
`lb_id`) and answers 202 with the single-item view. -/
def add_load_balancer (tenant_id : String) (s : CLB_Cache) (gm gn : Nat → Nat)
    (lb_info : LBInfo) (lb_id : Nat) (now : Nat) : (Payload × Nat) × CLB_Cache :=
  let meta := buildMeta lb_info
  let s1 := setMeta s lb_id meta
  let status := if (alookup "lb_building" meta).isSome then Status.BUILD else Status.ACTIVE
  let r0 := load_balancer_example gm gn lb_info lb_id status now
  let r := { r0 with
    tenant_id := tenant_id
    nodeCount := (r0.nodes.getD []).length }
  ((Payload.lb (lb_without_tenant r), 202), setLbs s1 lb_id r)

/-- `get_load_balancers(cache, lb_id, current_timestamp)`: reconcile
(observing only), then answer the single-item view; 404 when the id is
absent.  The status log line and `_lb_without_tenant` re-index the store, so
a record purged during reconciliation raises `KeyError`. -/
def get_load_balancers (s : CLB_Cache) (lb_id : Nat) (now : Nat) :
    Except String (Payload × Nat) × CLB_Cache :=
  match alookup lb_id s.lbs with
  | some _ =>
    match verify_and_update_lb_state s lb_id false now with
    | (Except.error e, s1) => (Except.error e, s1)
    | (Except.ok _, s1) =>
      match alookup lb_id s1.lbs with
      | none => (Except.error keyError, s1)
      | some r => (Except.ok (Payload.lb (lb_without_tenant r), 200), s1)
  | none => (Except.ok (Payload.notFound "loadbalancer", 404), s)

/-- The message of the 400 response for a delete on a PENDING-DELETE
record. -/
def immutableDelMsg (lb_id : Nat) : String :=
  "Must provide valid load balancers: " ++ toString lb_id ++
    " are immutable and could not be processed."

/-- The message of the 400 response for a delete on a DELETED record. -/
def notFoundDelMsg (lb_id : Nat) : String :=
  "Must provide valid load balancers: " ++ toString lb_id ++ " could not be found."

/-- The 422 message for a mutation on a non-ACTIVE record. -/
def immutableMsg (lb_id : Nat) (st : Status) : String :=
  "Load Balancer " ++ toString lb_id ++ " has a status of " ++ st.toStr ++
    " and is considered immutable."

/-- The 413 duplicate-node message. -/
def dupMsg : String :=
  "Duplicate nodes detected. One or more nodes already configured on load balancer."

/-- The 410 message for node reads on a DELETED record. -/
def deletedMsg : String := "The loadbalancer is marked as deleted."

/-- `del_load_balancer(cache, lb_id, current_timestamp)`: a PENDING-DELETE
record answers 400 up front; otherwise reconcile with `set_state=True`, then
branch on the updated status (a record purged by that reconciliation raises
`KeyError` at the status re-read). -/
def del_load_balancer (s : CLB_Cache) (lb_id : Nat) (now : Nat) :
    Except String (Payload × Nat) × CLB_Cache :=
  match alookup lb_id s.lbs with
  | none => (Except.ok (Payload.notFound "loadbalancer", 404), s)
  | some r =>
    if r.status = Status.PENDING_DELETE then
      (Except.ok (Payload.invalid (immutableDelMsg lb_id) 400, 400), s)
    else
      match verify_and_update_lb_state s lb_id true now with
      | (Except.error e, s1) => (Except.error e, s1)
      | (Except.ok _, s1) =>
        match alookup lb_id s1.lbs with
        | none => (Except.error keyError, s1)
        | some r1 =>
          if r1.status = Status.ACTIVE ∨ r1.status = Status.ERROR ∨
              r1.status = Status.PENDING_UPDATE then
            (Except.ok (Payload.empty, 202), { s1 with lbs := aremove lb_id s1.lbs })
          else if r1.status = Status.PENDING_DELETE then
            (Except.ok (Payload.empty, 202), s1)
          else if r1.status = Status.DELETED then
            match verify_and_update_lb_state s1 lb_id true now with
            | (Except.error e, s2) => (Except.error e, s2)
            | (Except.ok _, s2) =>
              (Except.ok (Payload.invalid (notFoundDelMsg lb_id) 400, 400), s2)
          else
            (Except.ok (Payload.notFound "loadbalancer", 404), s1)

/-- `list_load_balancers` reconciles every record of the tenant in turn; the
status log line after each reconciliation re-indexes the store, raising
`KeyError` when the record was purged. -/
def verifyAllLogged (s : CLB_Cache) (now : Nat) : List Nat → Except String Unit × CLB_Cache
  | [] => (Except.ok (), s)
  | k :: ks =>
    match verify_and_update_lb_state s k false now with
    | (Except.error e, s1) => (Except.error e, s1)
    | (Except.ok _, s1) =>
      match alookup k s1.lbs with
      | none => (Except.error keyError, s1)
      | some _ => verifyAllLogged s1 now ks

/-- `list_load_balancers(tenant_id, cache, current_timestamp)`: snapshot the
tenant's ids, reconcile each, then project the surviving records through the
list view. -/
def list_load_balancers (tenant_id : String) (s : CLB_Cache) (now : Nat) :
    Except String (Payload × Nat) × CLB_Cache :=
  let keys := (s.lbs.filter fun p => p.2.tenant_id == tenant_id).map Prod.fst
  match verifyAllLogged s now keys with
  | (Except.error e, s1) => (Except.error e, s1)
  | (Except.ok _, s1) =>
    let items := (s1.lbs.filter fun p => p.2.tenant_id == tenant_id).map
      fun p => prep_for_list p.2
    (Except.ok (Payload.lbList items, 200), s1)

/-- `add_node(cache, node_list, lb_id, current_timestamp)`: reconcile
(observing only); 422 unless ACTIVE; when the record already has nodes,
reject any incoming (address, port) collision with 413 or append; when it
has none, install the batch, recompute `nodeCount` and reconcile with
`set_state=True`. -/
def add_node (s : CLB_Cache) (gn : Nat → Nat) (node_list : List NodeReq)
    (lb_id : Nat) (now : Nat) : Except String (Payload × Nat) × CLB_Cache :=
  match alookup lb_id s.lbs with
  | none => (Except.ok (Payload.notFound "loadbalancer", 404), s)
  | some _ =>
    match verify_and_update_lb_state s lb_id false now with
    | (Except.error e, s1) => (Except.error e, s1)
    | (Except.ok _, s1) =>
      match alookup lb_id s1.lbs with
      | none => (Except.error keyError, s1)
      | some r =>
        if r.status ≠ Status.ACTIVE then
          (Except.ok (Payload.invalid (immutableMsg lb_id r.status) 422, 422), s1)
        else
          let nodes := format_nodes_on_lb gn node_list
          match r.nodes with
          | some (e0 :: es) =>
            if (e0 :: es).any (fun en => node_list.any fun nn =>
                en.address == nn.address && en.port == nn.port) then
              (Except.ok (Payload.invalid dupMsg 413, 413), s1)
            else
              (Except.ok (Payload.nodes nodes, 200),
                setLbs s1 lb_id { r with nodes := some ((e0 :: es) ++ nodes) })
          | _ =>
            let r1 := { r with nodes := some nodes, nodeCount := nodes.length }
            let s2 := setLbs s1 lb_id r1
            match verify_and_update_lb_state s2 lb_id true now with
            | (Except.error e, s3) => (Except.error e, s3)
            | (Except.ok _, s3) => (Except.ok (Payload.nodes nodes, 200), s3)

/-- `get_nodes(cache, lb_id, node_id, current_timestamp)`: reconcile, 410 on
DELETED, then linear search of the node list. -/
def get_nodes (s : CLB_Cache) (lb_id : Nat) (node_id : Nat) (now : Nat) :
    Except String (Payload × Nat) × CLB_Cache :=
  match alookup lb_id s.lbs with
  | none => (Except.ok (Payload.notFound "loadbalancer", 404), s)
  | some _ =>
    match verify_and_update_lb_state s lb_id false now with
    | (Except.error e, s1) => (Except.error e, s1)
    | (Except.ok _, s1) =>
      match alookup lb_id s1.lbs with
      | none => (Except.error keyError, s1)
      | some r =>
        if r.status = Status.DELETED then
          (Except.ok (Payload.invalid deletedMsg 410, 410), s1)
        else
          match r.nodes with
          | some (n0 :: ns) =>
            match (n0 :: ns).find? (fun e => e.id == node_id) with
            | some nd => (Except.ok (Payload.node nd, 200), s1)
            | none => (Except.ok (Payload.notFound "node", 404), s1)
          | _ => (Except.ok (Payload.notFound "node", 404), s1)

/-- `delete_node(cache, lb_id, node_id, current_timestamp)`: reconcile
(observing only); 422 unless ACTIVE; reconcile again with `set_state=True`;
then remove the first node whose id matches, dropping the `nodes` key when
the list empties and recomputing `nodeCount`. -/
def delete_node (s : CLB_Cache) (lb_id : Nat) (node_id : Nat) (now : Nat) :
    Except String (Payload × Nat) × CLB_Cache :=
  match alookup lb_id s.lbs with
  | none => (Except.ok (Payload.notFound "loadbalancer", 404), s)
  | some _ =>
    match verify_and_update_lb_state s lb_id false now with
    | (Except.error e, s1) => (Except.error e, s1)
    | (Except.ok _, s1) =>
      match alookup lb_id s1.lbs with
      | none => (Except.error keyError, s1)
      | some r =>
        if r.status ≠ Status.ACTIVE then
          (Except.ok (Payload.invalid (immutableMsg lb_id r.status) 422, 422), s1)
        else
          match verify_and_update_lb_state s1 lb_id true now with
          | (Except.error e, s2) => (Except.error e, s2)
          | (Except.ok _, s2) =>
            match alookup lb_id s2.lbs with
            | none => (Except.error keyError, s2)
            | some r2 =>
              match r2.nodes with
              | some (n0 :: ns) =>
                match (n0 :: ns).find? (fun e => e.id == node_id) with
                | some nd =>
                  let remaining := (n0 :: ns).erase nd
                  let r3 :=
                    if remaining = [] then
                      { r2 with nodes := none, nodeCount := 0 }
                    else
                      { r2 with nodes := some remaining, nodeCount := remaining.length }
                  (Except.ok (Payload.empty, 202), setLbs s2 lb_id r3)
                | none => (Except.ok (Payload.notFound "node", 404), s2)
              | _ => (Except.ok (Payload.notFound "node", 404), s2)

/-- `list_nodes(cache, lb_id, current_timestamp)`: reconcile, then re-check
that the id is still present (the purge-aware read path), 410 on DELETED,
else the node list (empty list when the key is absent). -/
def list_nodes (s : CLB_Cache) (lb_id : Nat) (now : Nat) :
    Except String (Payload × Nat) × CLB_Cache :=
  match alookup lb_id s.lbs with
  | none => (Except.ok (Payload.notFound "loadbalancer", 404), s)
  | some _ =>
    match verify_and_update_lb_state s lb_id false now with
    | (Except.error e, s1) => (Except.error e, s1)
    | (Except.ok _, s1) =>
      match alookup lb_id s1.lbs with
      | none => (Except.ok (Payload.notFound "loadbalancer", 404), s1)
      | some r =>
        if r.status = Status.DELETED then
          (Except.ok (Payload.invalid deletedMsg 410, 410), s1)
        else
          let node_list := match r.nodes with
            | some (n0 :: ns) => n0 :: ns
            | _ => []
          (Except.ok (Payload.nodes node_list, 200), s1)

/-- One public operation of the interface, with all its inputs. -/
inductive Op where
  | create (tenant_id : String) (gm gn : Nat → Nat) (lb_info : LBInfo)
      (lb_id : Nat) (now : Nat)
  | get (lb_id : Nat) (now : Nat)
  | listLbs (tenant_id : String) (now : Nat)
  | del (lb_id : Nat) (now : Nat)
  | addNode (gn : Nat → Nat) (node_list : List NodeReq) (lb_id : Nat) (now : Nat)
  | getNode (lb_id : Nat) (node_id : Nat) (now : Nat)
  | delNode (lb_id : Nat) (node_id : Nat) (now : Nat)
  | listNodes (lb_id : Nat) (now : Nat)

/-- Dispatch one public operation against the store. -/
def applyOp (s : CLB_Cache) : Op → Except String (Payload × Nat) × CLB_Cache
  | Op.create tenant_id gm gn lb_info lb_id now =>
    let r := add_load_balancer tenant_id s gm gn lb_info lb_id now
    (Except.ok r.1, r.2)
  | Op.get lb_id now => get_load_balancers s lb_id now
  | Op.listLbs tenant_id now => list_load_balancers tenant_id s now
  | Op.del lb_id now => del_load_balancer s lb_id now
  | Op.addNode gn node_list lb_id now => add_node s gn node_list lb_id now
  | Op.getNode lb_id node_id now => get_nodes s lb_id node_id now
  | Op.delNode lb_id node_id now => delete_node s lb_id node_id now
  | Op.listNodes lb_id now => list_nodes s lb_id now

/-- The empty store the process starts from. -/
def initCache : CLB_Cache := { lbs := [], meta := [] }

/-- Store states reachable from the empty store by complete public
operations. -/
inductive Reachable : CLB_Cache → Prop where
  | init : Reachable initCache
  | step (s : CLB_Cache) (op : Op) : Reachable s → Reachable (applyOp s op).2

/-- Every record in the store has a status other than the transient
`DELETING-NOW`. -/
def goodState (s : CLB_Cache) : Prop :=
  ∀ p ∈ s.lbs, p.2.status ≠ Status.DELETING_NOW

/-- The five status values named by the specification. -/
def fiveStatuses : List Status :=
  [Status.BUILD, Status.ACTIVE, Status.PENDING_UPDATE, Status.PENDING_DELETE,
   Status.DELETED]

/-- The six status values the code actually stores and returns. -/
def sixStatuses : List Status :=
  [Status.BUILD, Status.ACTIVE, Status.PENDING_UPDATE, Status.PENDING_DELETE,
   Status.DELETED, Status.ERROR]

/-- The load-balancer statuses contained in a response payload. -/
def payloadStatuses : Payload → List Status
  | Payload.lb v => [v.status]
  | Payload.lbList vs => vs.map LBListItem.status
  | _ => []

/-- The load-balancer statuses contained in an operation result (none when the
call escaped with an uncaught error). -/
def resultStatuses : Except String (Payload × Nat) → List Status
  | Except.ok (pl, _) => payloadStatuses pl
  | Except.error _ => []

/-! ### Concrete fixtures used by counterexamples and witnesses -/

/-- A minimal creation request: every optional key absent. -/
def cInfo : LBInfo :=
  { name := "lb", protocol := "HTTP", port := none, algorithm := none,
    timeout := none, httpsRedirect := none, halfClosed := none,
    connectionLogging := none, nodes := none, metadata := none }

/-- An incoming node request. -/
def nodeReq1 : NodeReq :=
  { address := "1.1.1.1", condition := "ENABLED", port := 80, weight := none,
    ntype := none }

/-- A second incoming node request with a distinct address. -/
def nodeReq2 : NodeReq :=
  { address := "2.2.2.2", condition := "ENABLED", port := 80, weight := none,
    ntype := none }

/-- A node request colliding with `nodeReq1` on (address, port) but differing
in every other caller-settable field. -/
def nodeReq1b : NodeReq :=
  { address := "1.1.1.1", condition := "DISABLED", port := 80, weight := some 5,
    ntype := some "SECONDARY" }

/-- The store after creating one flag-free load balancer (id 1, tenant
"tenant") at time 0. -/
def baseCache : CLB_Cache :=
  (add_load_balancer "tenant" initCache (fun i => i) (fun i => i) cInfo 1 0).2

/-- The record stored in `baseCache`. -/
def rBase : LBRecord :=
  { name := "lb", id := 1, protocol := "HTTP", port := 80, algorithm := "RANDOM",
    status := Status.ACTIVE, timeout := 30, created := 0, updated := 0,
    httpsRedirect := false, halfClosed := false, connectionLogging := false,
    nodes := none, metadata := none, tenant_id := "tenant", nodeCount := 0 }

/-- The store after creating a load balancer carrying one node at time 0. -/
def c4Cache1 : CLB_Cache :=
  (add_load_balancer "tenant" initCache (fun i => i) (fun i => i)
    { cInfo with nodes := some [nodeReq1] } 1 0).2

/-- The record stored in `c4Cache1`. -/
def rC4 : LBRecord :=
  { name := "lb", id := 1, protocol := "HTTP", port := 80, algorithm := "RANDOM",
    status := Status.ACTIVE, timeout := 30, created := 0, updated := 0,
    httpsRedirect := false, halfClosed := false, connectionLogging := false,
    nodes := some [⟨"1.1.1.1", "ENABLED", 80, none, none, 0, "ONLINE"⟩],
    metadata := none, tenant_id := "tenant", nodeCount := 1 }

/-- Adding a second, distinct node to the single-node load balancer. -/
def c4Res : Except String (Payload × Nat) × CLB_Cache :=
  add_node c4Cache1 (fun i => i + 10) [nodeReq2] 1 0

/-- Adding a batch whose two nodes share the same (address, port) to a
node-less load balancer. -/
def c5Res : Except String (Payload × Nat) × CLB_Cache :=
  add_node baseCache (fun i => i) [nodeReq1, nodeReq1] 1 0

/-- A load balancer created with both `lb_pending_update` and
`lb_pending_delete` flags. -/
def puPdCache : CLB_Cache :=
  (add_load_balancer "tenant" initCache (fun i => i) (fun i => i)
    { cInfo with metadata := some [("lb_pending_update", 1), ("lb_pending_delete", 1)] }
    1 0).2

/-- The record stored in `puPdCache`. -/
def rPuPd : LBRecord :=
  { name := "lb", id := 1, protocol := "HTTP", port := 80, algorithm := "RANDOM",
    status := Status.ACTIVE, timeout := 30, created := 0, updated := 0,
    httpsRedirect := false, halfClosed := false, connectionLogging := false,
    nodes := none,
    metadata := some [{ key := "lb_pending_update", value := 1, id := 0 },
      { key := "lb_pending_delete", value := 1, id := 1 }],
    tenant_id := "tenant", nodeCount := 0 }

/-- The flag map stored in `puPdCache`. -/
def mPuPd : Meta := [("lb_pending_update", 1), ("lb_pending_delete", 1)]

/-- Reconciling the two-flag ACTIVE record with `set_state=True`. -/
def puPdVerify : Except String Unit × CLB_Cache :=
  verify_and_update_lb_state puPdCache 1 true 0

/-- A load balancer created with an `lb_error_state` flag, its first node
added at time 0 (the first-append reconciliation drives it to ERROR), and the
subsequent `get`. -/
def errCache1 : CLB_Cache :=
  (add_load_balancer "tenant" initCache (fun i => i) (fun i => i)
    { cInfo with metadata := some [("lb_error_state", 1)] } 1 0).2

/-- The store after the first `addNodes` on `errCache1`. -/
def errCache2 : CLB_Cache := (add_node errCache1 (fun i => i) [nodeReq1] 1 0).2

/-- The `get` on the ERROR-status record. -/
def errGet : Except String (Payload × Nat) × CLB_Cache :=
  get_load_balancers errCache2 1 0

/-- A load balancer created with `lb_pending_delete = 10` and deleted at
time 0: it sits in PENDING-DELETE with its 10-second duration unelapsed. -/
def pdCache : CLB_Cache :=
  (del_load_balancer
    (add_load_balancer "tenant" initCache (fun i => i) (fun i => i)
      { cInfo with metadata := some [("lb_pending_delete", 10)] } 1 0).2
    1 0).2

/-- The record stored in `pdCache`. -/
def rPd : LBRecord :=
  { name := "lb", id := 1, protocol := "HTTP", port := 80, algorithm := "RANDOM",
    status := Status.PENDING_DELETE, timeout := 30, created := 0, updated := 0,
    httpsRedirect := false, halfClosed := false, connectionLogging := false,
    nodes := none,
    metadata := some [{ key := "lb_pending_delete", value := 10, id := 0 }],
    tenant_id := "tenant", nodeCount := 0 }

/-- The second delete, 1 second in: the duration has not elapsed. -/
def pdSecondDel : Except String (Payload × Nat) × CLB_Cache :=
  del_load_balancer pdCache 1 1

/-- A load balancer with `lb_pending_delete = 1`: created at 0, deleted at 0
(PENDING-DELETE), observed DELETED by a `get` at 1. -/
def c8Cache1 : CLB_Cache :=
  (add_load_balancer "tenant" initCache (fun i => i) (fun i => i)
    { cInfo with metadata := some [("lb_pending_delete", 1)] } 1 0).2

/-- The store after `del` at time 0 (PENDING-DELETE, updated 0). -/
def c8Cache2 : CLB_Cache := (del_load_balancer c8Cache1 1 0).2

/-- The store after `get` at time 1 (DELETED, updated 1). -/
def c8Cache3 : CLB_Cache := (get_load_balancers c8Cache2 1 1).2

/-- The record stored in `c8Cache3`. -/
def rC8Del : LBRecord :=
  { name := "lb", id := 1, protocol := "HTTP", port := 80, algorithm := "RANDOM",
    status := Status.DELETED, timeout := 30, created := 0, updated := 1,
    httpsRedirect := false, halfClosed := false, connectionLogging := false,
    nodes := none,
    metadata := some [{ key := "lb_pending_delete", value := 1, id := 0 }],
    tenant_id := "tenant", nodeCount := 0 }

/-- The `get` at time 3601: the 3600-second grace period since `updated = 1`
has elapsed. -/
def c8Res : Except String (Payload × Nat) × CLB_Cache :=
  get_load_balancers c8Cache3 1 3601

/-! ### Association-list lemmas -/

theorem alookup_aset {κ α : Type} [DecidableEq κ] (k k1 : κ) (v : α) (l : List (κ × α)) :
    alookup k (aset k1 v l) = if k1 = k then some v else alookup k l := by
  induction l with
  | nil => simp [aset, alookup]
  | cons p t ih =>
    obtain ⟨a, b⟩ := p
    by_cases h1 : a = k1
    · subst h1
      by_cases h2 : a = k <;> simp [aset, alookup, h2]
    · by_cases h2 : a = k
      · subst h2
        have : ¬ k1 = a := fun h => h1 h.symm
        simp [aset, alookup, h1, this]
      · simp [aset, alookup, h1, h2, ih]

theorem mem_aset {κ α : Type} [DecidableEq κ] {p : κ × α} {k : κ} {v : α}
    {l : List (κ × α)} (h : p ∈ aset k v l) : p = (k, v) ∨ p ∈ l := by
  induction l with
  | nil =>
    have e : aset k v ([] : List (κ × α)) = [(k, v)] := rfl
    rw [e] at h
    rcases List.mem_cons.mp h with h2 | h2
    · exact Or.inl h2
    · exact absurd h2 (List.not_mem_nil p)
  | cons q t ih =>
    obtain ⟨a, b⟩ := q
    have e : aset k v ((a, b) :: t) =
        if a = k then (k, v) :: t else (a, b) :: aset k v t := rfl
    rw [e] at h
    by_cases h1 : a = k
    · rw [if_pos h1] at h
      rcases List.mem_cons.mp h with h2 | h2
      · exact Or.inl h2
      · exact Or.inr (List.mem_cons_of_mem _ h2)
    · rw [if_neg h1] at h
      rcases List.mem_cons.mp h with h2 | h2
      · exact Or.inr (h2 ▸ List.mem_cons_self _ _)
      · rcases ih h2 with h3 | h3
        · exact Or.inl h3
        · exact Or.inr (List.mem_cons_of_mem _ h3)

theorem mem_aremove {κ α : Type} [DecidableEq κ] {p : κ × α} {k : κ}
    {l : List (κ × α)} (h : p ∈ aremove k l) : p ∈ l := by
  induction l with
  | nil => simp [aremove] at h
  | cons q t ih =>
    obtain ⟨a, b⟩ := q
    have e : aremove k ((a, b) :: t) =
        if a = k then t else (a, b) :: aremove k t := rfl
    rw [e] at h
    by_cases h1 : a = k
    · rw [if_pos h1] at h
      exact List.mem_cons_of_mem _ h
    · rw [if_neg h1] at h
      rcases List.mem_cons.mp h with h2 | h2
      · exact h2 ▸ List.mem_cons_self _ _
      · exact List.mem_cons_of_mem _ (ih h2)

theorem alookup_mem {κ α : Type} [DecidableEq κ] {k : κ} {v : α}
    {l : List (κ × α)} (h : alookup k l = some v) : (k, v) ∈ l := by
  induction l with
  | nil => simp [alookup] at h
  | cons q t ih =>
    obtain ⟨a, b⟩ := q
    have e : alookup k ((a, b) :: t) = if a = k then some b else alookup k t := rfl
    rw [e] at h
    by_cases h1 : a = k
    · rw [if_pos h1] at h
      injection h with h2
      subst h1
      subst h2
      exact List.mem_cons_self _ _
    · rw [if_neg h1] at h
      exact List.mem_cons_of_mem _ (ih h)

theorem aremove_aset {κ α : Type} [DecidableEq κ] (k : κ) (v : α) (l : List (κ × α)) :
    aremove k (aset k v l) = aremove k l := by
  induction l with
  | nil => simp [aset, aremove]
  | cons q t ih =>
    obtain ⟨a, b⟩ := q
    by_cases h1 : a = k
    · simp [aset, aremove, h1]
    · simp [aset, aremove, h1, ih]

theorem alookup_eq_none {κ α : Type} [DecidableEq κ] {k : κ} {l : List (κ × α)}
    (h : k ∉ l.map Prod.fst) : alookup k l = none := by
  induction l with
  | nil => simp [alookup]
  | cons q t ih =>
    obtain ⟨a, b⟩ := q
    simp only [List.map_cons, List.mem_cons] at h
    push_neg at h
    have h1 : ¬ a = k := fun he => h.1 he.symm
    simp [alookup, h1, ih h.2]

theorem alookup_aremove_self {κ α : Type} [DecidableEq κ] {k : κ} {l : List (κ × α)}
    (h : (l.map Prod.fst).Nodup) : alookup k (aremove k l) = none := by
  induction l with
  | nil => simp [aremove, alookup]
  | cons q t ih =>
    obtain ⟨a, b⟩ := q
    simp only [List.map_cons, List.nodup_cons] at h
    by_cases h1 : a = k
    · subst h1
      simpa [aremove] using alookup_eq_none h.1
    · simp [aremove, alookup, h1, ih h.2]

/-! ### The store invariant: DELETING-NOW is never stored -/

theorem goodState_setLbs {s : CLB_Cache} {k : Nat} {r : LBRecord}
    (h : goodState s) (hr : r.status ≠ Status.DELETING_NOW) :
    goodState (setLbs s k r) := by
  intro p hp
  rcases mem_aset hp with h1 | h1
  · simpa [h1] using hr
  · exact h p h1

theorem goodState_setMeta {s : CLB_Cache} {k : Nat} {m : Meta}
    (h : goodState s) : goodState (setMeta s k m) := h

theorem goodState_removeLbs {s : CLB_Cache} {k : Nat}
    (h : goodState s) : goodState { s with lbs := aremove k s.lbs } :=
  fun p hp => h p (mem_aremove hp)

theorem goodStatus_getD (u d now : Nat) {tgt fb : Status}
    (ht : tgt ≠ Status.DELETING_NOW) (hf : fb ≠ Status.DELETING_NOW) :
    (set_resource_status u d tgt now).getD fb ≠ Status.DELETING_NOW := by
  unfold set_resource_status
  split <;> simpa

/-! ### Branch characterizations of the reconciliation -/

theorem verify_no_lb (s : CLB_Cache) (lb_id : Nat) (ss : Bool) (now : Nat)
    (hl : alookup lb_id s.lbs = none) :
    verify_and_update_lb_state s lb_id ss now = (Except.error keyError, s) := by
  unfold verify_and_update_lb_state
  rw [hl]

theorem verify_build_no_meta (s : CLB_Cache) (lb_id : Nat) (ss : Bool) (now : Nat)
    (r : LBRecord) (hl : alookup lb_id s.lbs = some r) (hr : r.status = Status.BUILD)
    (hm : alookup lb_id s.meta = none) :
    verify_and_update_lb_state s lb_id ss now = (Except.error keyError, s) := by
  unfold verify_and_update_lb_state
  rw [hl]
  dsimp only
  rw [if_pos hr, hm]

theorem verify_build_no_flag (s : CLB_Cache) (lb_id : Nat) (ss : Bool) (now : Nat)
    (r : LBRecord) (m : Meta) (hl : alookup lb_id s.lbs = some r)
    (hr : r.status = Status.BUILD) (hm : alookup lb_id s.meta = some m)
    (hv : alookup "lb_building" m = none) :
    verify_and_update_lb_state s lb_id ss now = (Except.error keyError, s) := by
  unfold verify_and_update_lb_state
  rw [hl]
  dsimp only
  rw [if_pos hr, hm]
  dsimp only
  rw [hv]

theorem verify_build (s : CLB_Cache) (lb_id : Nat) (ss : Bool) (now : Nat)
    (r : LBRecord) (m : Meta) (v : Nat)
    (hl : alookup lb_id s.lbs = some r) (hr : r.status = Status.BUILD)
    (hm : alookup lb_id s.meta = some m) (hv : alookup "lb_building" m = some v) :
    verify_and_update_lb_state s lb_id ss now =
      (Except.ok (),
       setLbs (setMeta s lb_id (aset "lb_building" (if v = 0 then 10 else v) m)) lb_id
         { r with status := (set_resource_status r.updated (if v = 0 then 10 else v)
             Status.ACTIVE now).getD Status.BUILD }) := by
  unfold verify_and_update_lb_state
  rw [hl]
  dsimp only
  rw [if_pos hr, hm]
  dsimp only
  rw [hv]

theorem verify_active_noset (s : CLB_Cache) (lb_id : Nat) (now : Nat)
    (r : LBRecord) (hl : alookup lb_id s.lbs = some r) (hr : r.status = Status.ACTIVE) :
    verify_and_update_lb_state s lb_id false now = (Except.ok (), s) := by
  unfold verify_and_update_lb_state
  rw [hl]
  dsimp only
  rw [if_neg (by simp [hr]), if_neg (by simp), if_neg (by simp [hr]),
    if_neg (by simp [hr]), if_neg (by simp [hr])]

theorem verify_active_set_no_meta (s : CLB_Cache) (lb_id : Nat) (now : Nat)
    (r : LBRecord) (hl : alookup lb_id s.lbs = some r) (hr : r.status = Status.ACTIVE)
    (hm : alookup lb_id s.meta = none) :
    verify_and_update_lb_state s lb_id true now = (Except.error keyError, s) := by
  unfold verify_and_update_lb_state
  rw [hl]
  dsimp only
  rw [if_neg (by simp [hr]), if_pos (by simp [hr]), hm]

theorem verify_active_set (s : CLB_Cache) (lb_id : Nat) (now : Nat)
    (r : LBRecord) (m : Meta)
    (hl : alookup lb_id s.lbs = some r) (hr : r.status = Status.ACTIVE)
    (hm : alookup lb_id s.meta = some m) :
    verify_and_update_lb_state s lb_id true now =
      (Except.ok (),
       setLbs s lb_id
         { r with
           status :=
             if (alookup "lb_error_state" m).isSome then Status.ERROR
             else if (alookup "lb_pending_delete" m).isSome then Status.PENDING_DELETE
             else if (alookup "lb_pending_update" m).isSome then Status.PENDING_UPDATE
             else r.status
           updated := now }) := by
  unfold verify_and_update_lb_state
  rw [hl]
  dsimp only
  rw [if_neg (by simp [hr]), if_pos (by simp [hr]), hm]

theorem verify_pu_no_meta (s : CLB_Cache) (lb_id : Nat) (ss : Bool) (now : Nat)
    (r : LBRecord) (hl : alookup lb_id s.lbs = some r)
    (hr : r.status = Status.PENDING_UPDATE) (hm : alookup lb_id s.meta = none) :
    verify_and_update_lb_state s lb_id ss now = (Except.error keyError, s) := by
  unfold verify_and_update_lb_state
  rw [hl]
  dsimp only
  rw [if_neg (by simp [hr]), if_neg (by simp [hr]), if_pos hr, hm]

theorem verify_pu_no_flag (s : CLB_Cache) (lb_id : Nat) (ss : Bool) (now : Nat)
    (r : LBRecord) (m : Meta) (hl : alookup lb_id s.lbs = some r)
    (hr : r.status = Status.PENDING_UPDATE) (hm : alookup lb_id s.meta = some m)
    (hv : alookup "lb_pending_update" m = none) :
    verify_and_update_lb_state s lb_id ss now = (Except.ok (), s) := by
  unfold verify_and_update_lb_state
  rw [hl]
  dsimp only
  rw [if_neg (by simp [hr]), if_neg (by simp [hr]), if_pos hr, hm]
  dsimp only
  rw [hv]

theorem verify_pu (s : CLB_Cache) (lb_id : Nat) (ss : Bool) (now : Nat)
    (r : LBRecord) (m : Meta) (v : Nat) (hl : alookup lb_id s.lbs = some r)
    (hr : r.status = Status.PENDING_UPDATE) (hm : alookup lb_id s.meta = some m)
    (hv : alookup "lb_pending_update" m = some v) :
    verify_and_update_lb_state s lb_id ss now =
      (Except.ok (),
       setLbs s lb_id
         { r with status := ((set_resource_status r.updated v Status.ACTIVE now).getD
             Status.PENDING_UPDATE) }) := by
  unfold verify_and_update_lb_state
  rw [hl]
  dsimp only
  rw [if_neg (by simp [hr]), if_neg (by simp [hr]), if_pos hr, hm]
  dsimp only
  rw [hv]

theorem verify_pd_no_meta (s : CLB_Cache) (lb_id : Nat) (ss : Bool) (now : Nat)
    (r : LBRecord) (hl : alookup lb_id s.lbs = some r)
    (hr : r.status = Status.PENDING_DELETE) (hm : alookup lb_id s.meta = none) :
    verify_and_update_lb_state s lb_id ss now = (Except.error keyError, s) := by
  unfold verify_and_update_lb_state
  rw [hl]
  dsimp only
  rw [if_neg (by simp [hr]), if_neg (by simp [hr]), if_neg (by simp [hr]), if_pos hr, hm]

theorem verify_pd_no_flag (s : CLB_Cache) (lb_id : Nat) (ss : Bool) (now : Nat)
    (r : LBRecord) (m : Meta) (hl : alookup lb_id s.lbs = some r)
    (hr : r.status = Status.PENDING_DELETE) (hm : alookup lb_id s.meta = some m)
    (hv : alookup "lb_pending_delete" m = none) :
    verify_and_update_lb_state s lb_id ss now = (Except.error keyError, s) := by
  unfold verify_and_update_lb_state
  rw [hl]
  dsimp only
  rw [if_neg (by simp [hr]), if_neg (by simp [hr]), if_neg (by simp [hr]), if_pos hr, hm]
  dsimp only
  rw [hv]

theorem verify_pd (s : CLB_Cache) (lb_id : Nat) (ss : Bool) (now : Nat)
    (r : LBRecord) (m : Meta) (v : Nat) (hl : alookup lb_id s.lbs = some r)
    (hr : r.status = Status.PENDING_DELETE) (hm : alookup lb_id s.meta = some m)
    (hv : alookup "lb_pending_delete" m = some v) :
    verify_and_update_lb_state s lb_id ss now =
      (Except.ok (),
       setLbs (setMeta s lb_id (aset "lb_pending_delete" (if v = 0 then 10 else v) m)) lb_id
         { r with
           status := (set_resource_status r.updated (if v = 0 then 10 else v)
             Status.DELETED now).getD Status.PENDING_DELETE
           updated := now }) := by
  unfold verify_and_update_lb_state
  rw [hl]
  dsimp only
  rw [if_neg (by simp [hr]), if_neg (by simp [hr]), if_neg (by simp [hr]), if_pos hr, hm]
  dsimp only
  rw [hv]

theorem verify_deleted_stay (s : CLB_Cache) (lb_id : Nat) (ss : Bool) (now : Nat)
    (r : LBRecord) (hl : alookup lb_id s.lbs = some r)
    (hr : r.status = Status.DELETED) (ht : ¬ r.updated + 3600 ≤ now) :
    verify_and_update_lb_state s lb_id ss now =
      (Except.ok (), setLbs s lb_id { r with status := Status.DELETED }) := by
  unfold verify_and_update_lb_state
  rw [hl]
  dsimp only
  rw [if_neg (by simp [hr]), if_neg (by simp [hr]), if_neg (by simp [hr]),
    if_neg (by simp [hr]), if_pos hr]
  unfold set_resource_status
  rw [if_neg ht, Option.getD_none,
    if_neg (by decide : ¬ (Status.DELETED = Status.DELETING_NOW))]

theorem verify_deleted_purge (s : CLB_Cache) (lb_id : Nat) (ss : Bool) (now : Nat)
    (r : LBRecord) (hl : alookup lb_id s.lbs = some r)
    (hr : r.status = Status.DELETED) (ht : r.updated + 3600 ≤ now) :
    verify_and_update_lb_state s lb_id ss now =
      (Except.ok (), { s with lbs := aremove lb_id s.lbs }) := by
  unfold verify_and_update_lb_state
  rw [hl]
  dsimp only
  rw [if_neg (by simp [hr]), if_neg (by simp [hr]), if_neg (by simp [hr]),
    if_neg (by simp [hr]), if_pos hr]
  unfold set_resource_status
  rw [if_pos ht, Option.getD_some, if_pos rfl]
  dsimp only [setLbs]
  rw [aremove_aset]

theorem verify_error_status (s : CLB_Cache) (lb_id : Nat) (ss : Bool) (now : Nat)
    (r : LBRecord) (hl : alookup lb_id s.lbs = some r) (hr : r.status = Status.ERROR) :
    verify_and_update_lb_state s lb_id ss now = (Except.ok (), s) := by
  unfold verify_and_update_lb_state
  rw [hl]
  dsimp only
  rw [if_neg (by simp [hr]), if_neg (by simp [hr]), if_neg (by simp [hr]),
    if_neg (by simp [hr]), if_neg (by simp [hr])]

theorem verify_dnow_status (s : CLB_Cache) (lb_id : Nat) (ss : Bool) (now : Nat)
    (r : LBRecord) (hl : alookup lb_id s.lbs = some r)
    (hr : r.status = Status.DELETING_NOW) :
    verify_and_update_lb_state s lb_id ss now = (Except.ok (), s) := by
  unfold verify_and_update_lb_state
  rw [hl]
  dsimp only
  rw [if_neg (by simp [hr]), if_neg (by simp [hr]), if_neg (by simp [hr]),
    if_neg (by simp [hr]), if_neg (by simp [hr])]

/-! ### Invariant preservation -/

theorem verify_goodState (s : CLB_Cache) (lb_id : Nat) (ss : Bool) (now : Nat)
    (h : goodState s) :
    goodState (verify_and_update_lb_state s lb_id ss now).2 := by
  cases hl : alookup lb_id s.lbs with
  | none => rw [verify_no_lb s lb_id ss now hl]; exact h
  | some r =>
    cases hr : r.status with
    | BUILD =>
      cases hm : alookup lb_id s.meta with
      | none => rw [verify_build_no_meta s lb_id ss now r hl hr hm]; exact h
      | some m =>
        cases hv : alookup "lb_building" m with
        | none => rw [verify_build_no_flag s lb_id ss now r m hl hr hm hv]; exact h
        | some v =>
          rw [verify_build s lb_id ss now r m v hl hr hm hv]
          exact goodState_setLbs (goodState_setMeta h)
            (goodStatus_getD _ _ _ (by decide) (by decide))
    | ACTIVE =>
      cases ss with
      | false => rw [verify_active_noset s lb_id now r hl hr]; exact h
      | true =>
        cases hm : alookup lb_id s.meta with
        | none => rw [verify_active_set_no_meta s lb_id now r hl hr hm]; exact h
        | some m =>
          rw [verify_active_set s lb_id now r m hl hr hm]
          refine goodState_setLbs h ?_
          dsimp only
          split_ifs <;> simp [hr]
    | PENDING_UPDATE =>
      cases hm : alookup lb_id s.meta with
      | none => rw [verify_pu_no_meta s lb_id ss now r hl hr hm]; exact h
      | some m =>
        cases hv : alookup "lb_pending_update" m with
        | none => rw [verify_pu_no_flag s lb_id ss now r m hl hr hm hv]; exact h
        | some v =>
          rw [verify_pu s lb_id ss now r m v hl hr hm hv]
          exact goodState_setLbs h (goodStatus_getD _ _ _ (by decide) (by decide))
    | PENDING_DELETE =>
      cases hm : alookup lb_id s.meta with
      | none => rw [verify_pd_no_meta s lb_id ss now r hl hr hm]; exact h
      | some m =>
        cases hv : alookup "lb_pending_delete" m with
        | none => rw [verify_pd_no_flag s lb_id ss now r m hl hr hm hv]; exact h
        | some v =>
          rw [verify_pd s lb_id ss now r m v hl hr hm hv]
          exact goodState_setLbs h (goodStatus_getD _ _ _ (by decide) (by decide))
    | DELETED =>
      by_cases ht : r.updated + 3600 ≤ now
      · rw [verify_deleted_purge s lb_id ss now r hl hr ht]
        exact goodState_removeLbs h
      · rw [verify_deleted_stay s lb_id ss now r hl hr ht]
        exact goodState_setLbs h (by simp)
    | ERROR => rw [verify_error_status s lb_id ss now r hl hr]; exact h
    | DELETING_NOW => rw [verify_dnow_status s lb_id ss now r hl hr]; exact h

theorem verifyAllLogged_goodState (now : Nat) :
    ∀ (ks : List Nat) (s : CLB_Cache), goodState s →
      goodState (verifyAllLogged s now ks).2 := by
  intro ks
  induction ks with
  | nil => intro s h; exact h
  | cons k t ih =>
    intro s h
    unfold verifyAllLogged
    have hv := verify_goodState s k false now h
    rcases hvv : verify_and_update_lb_state s k false now with ⟨e, s1⟩
    rw [hvv] at hv
    cases e with
    | error e => exact hv
    | ok u =>
      dsimp only
      cases h2 : alookup k s1.lbs with
      | none => exact hv
      | some r => exact ih s1 hv

theorem verify_goodState2 {s : CLB_Cache} {lb_id : Nat} {ss : Bool} {now : Nat}
    {e : Except String Unit} {s1 : CLB_Cache}
    (heq : verify_and_update_lb_state s lb_id ss now = (e, s1)) (h : goodState s) :
    goodState s1 := by
  have hg := verify_goodState s lb_id ss now h
  rw [heq] at hg
  exact hg

theorem verifyAllLogged_goodState2 {now : Nat} {ks : List Nat} {s : CLB_Cache}
    {e : Except String Unit} {s1 : CLB_Cache}
    (heq : verifyAllLogged s now ks = (e, s1)) (h : goodState s) :
    goodState s1 := by
  have hg := verifyAllLogged_goodState now ks s h
  rw [heq] at hg
  exact hg

theorem applyOp_goodState (s : CLB_Cache) (op : Op) (h : goodState s) :
    goodState (applyOp s op).2 := by
  cases op with
  | create tenant_id gm gn lb_info lb_id now =>
    dsimp only [applyOp, add_load_balancer]
    refine goodState_setLbs (goodState_setMeta h) ?_
    split <;> simp [load_balancer_example]
  | get lb_id now =>
    dsimp only [applyOp]
    unfold get_load_balancers
    cases hl : alookup lb_id s.lbs with
    | none => exact h
    | some r =>
      dsimp only
      have hv := verify_goodState s lb_id false now h
      rcases hvv : verify_and_update_lb_state s lb_id false now with ⟨e, s1⟩
      rw [hvv] at hv
      cases e with
      | error e => exact hv
      | ok u =>
        dsimp only
        cases h2 : alookup lb_id s1.lbs with
        | none => exact hv
        | some r1 => exact hv
  | listLbs tenant_id now =>
    dsimp only [applyOp]
    unfold list_load_balancers
    dsimp only
    split
    all_goals rename_i heq
    all_goals exact verifyAllLogged_goodState2 heq h
  | del lb_id now =>
    dsimp only [applyOp]
    unfold del_load_balancer
    cases hl : alookup lb_id s.lbs with
    | none => exact h
    | some r =>
      dsimp only
      by_cases hpd : r.status = Status.PENDING_DELETE
      · rw [if_pos hpd]; exact h
      · rw [if_neg hpd]
        have hv := verify_goodState s lb_id true now h
        rcases hvv : verify_and_update_lb_state s lb_id true now with ⟨e, s1⟩
        rw [hvv] at hv
        cases e with
        | error e => exact hv
        | ok u =>
          dsimp only
          cases h2 : alookup lb_id s1.lbs with
          | none => exact hv
          | some r1 =>
            dsimp only
            split
            · exact goodState_removeLbs hv
            · split
              · exact hv
              · split
                · have hv2 := verify_goodState s1 lb_id true now hv
                  rcases hvv2 : verify_and_update_lb_state s1 lb_id true now with ⟨e2, s2⟩
                  rw [hvv2] at hv2
                  cases e2 with
                  | error e => exact hv2
                  | ok u => exact hv2
                · exact hv
  | addNode gn node_list lb_id now =>
    dsimp only [applyOp]
    unfold add_node
    cases hl : alookup lb_id s.lbs with
    | none => exact h
    | some r =>
      dsimp only
      have hv := verify_goodState s lb_id false now h
      rcases hvv : verify_and_update_lb_state s lb_id false now with ⟨e, s1⟩
      rw [hvv] at hv
      cases e with
      | error e => exact hv
      | ok u =>
        dsimp only
        cases h2 : alookup lb_id s1.lbs with
        | none => exact hv
        | some r1 =>
          dsimp only
          by_cases hA : r1.status ≠ Status.ACTIVE
          · rw [if_pos hA]; exact hv
          · rw [if_neg hA]
            push_neg at hA
            split
            · split
              · exact hv
              · exact goodState_setLbs hv (by simp [hA])
            · have hg : goodState (setLbs s1 lb_id
                  { r1 with
                    nodes := some (format_nodes_on_lb gn node_list)
                    nodeCount := (format_nodes_on_lb gn node_list).length }) :=
                goodState_setLbs hv (by simp [hA])
              have hv2 := verify_goodState _ lb_id true now hg
              rcases hvv2 : verify_and_update_lb_state (setLbs s1 lb_id
                  { r1 with
                    nodes := some (format_nodes_on_lb gn node_list)
                    nodeCount := (format_nodes_on_lb gn node_list).length })
                  lb_id true now with ⟨e2, s3⟩
              rw [hvv2] at hv2
              cases e2 with
              | error e => exact hv2
              | ok u => exact hv2
  | getNode lb_id node_id now =>
    dsimp only [applyOp]
    unfold get_nodes
    cases hl : alookup lb_id s.lbs with
    | none => exact h
    | some r =>
      dsimp only
      have hv := verify_goodState s lb_id false now h
      rcases hvv : verify_and_update_lb_state s lb_id false now with ⟨e, s1⟩
      rw [hvv] at hv
      cases e with
      | error e => exact hv
      | ok u =>
        dsimp only
        cases h2 : alookup lb_id s1.lbs with
        | none => exact hv
        | some r1 =>
          dsimp only
          split
          · exact hv
          · split
            · split
              · exact hv
              · exact hv
            · exact hv
  | delNode lb_id node_id now =>
    dsimp only [applyOp]
    unfold delete_node
    cases hl : alookup lb_id s.lbs with
    | none => exact h
    | some r =>
      dsimp only
      have hv := verify_goodState s lb_id false now h
      rcases hvv : verify_and_update_lb_state s lb_id false now with ⟨e, s1⟩
      rw [hvv] at hv
      cases e with
      | error e => exact hv
      | ok u =>
        dsimp only
        cases h2 : alookup lb_id s1.lbs with
        | none => exact hv
        | some r1 =>
          dsimp only
          split
          · exact hv
          · have hv2 := verify_goodState s1 lb_id true now hv
            rcases hvv2 : verify_and_update_lb_state s1 lb_id true now with ⟨e2, s2⟩
            rw [hvv2] at hv2
            cases e2 with
            | error e => exact hv2
            | ok u =>
              dsimp only
              cases h3 : alookup lb_id s2.lbs with
              | none => exact hv2
              | some r2 =>
                dsimp only
                split
                · split
                  · refine goodState_setLbs hv2 ?_
                    have hm2 : r2.status ≠ Status.DELETING_NOW :=
                      hv2 _ (alookup_mem h3)
                    split <;> simpa
                  · exact hv2
                · exact hv2
  | listNodes lb_id now =>
    dsimp only [applyOp]
    unfold list_nodes
    cases hl : alookup lb_id s.lbs with
    | none => exact h
    | some r =>
      dsimp only
      have hv := verify_goodState s lb_id false now h
      rcases hvv : verify_and_update_lb_state s lb_id false now with ⟨e, s1⟩
      rw [hvv] at hv
      cases e with
      | error e => exact hv
      | ok u =>
        dsimp only
        cases h2 : alookup lb_id s1.lbs with
        | none => exact hv
        | some r1 =>
          dsimp only
          split
          · exact hv
          · exact hv

theorem reachable_goodState {s : CLB_Cache} (h : Reachable s) : goodState s := by
  induction h with
  | init => intro p hp; simp [initCache] at hp
  | step s1 op h1 ih => exact applyOp_goodState s1 op ih

/-! ### Statuses appearing in responses -/

theorem mem_sixStatuses {st : Status} :
    st ∈ sixStatuses ↔ st ≠ Status.DELETING_NOW := by
  cases st <;> decide

theorem applyOp_result_good (s : CLB_Cache) (op : Op) (h : goodState s) :
    ∀ st ∈ resultStatuses (applyOp s op).1, st ≠ Status.DELETING_NOW := by
  cases op with
  | create tenant_id gm gn lb_info lb_id now =>
    dsimp only [applyOp, add_load_balancer]
    intro st hst
    simp only [resultStatuses, payloadStatuses, lb_without_tenant,
      load_balancer_example, List.mem_singleton] at hst
    subst hst
    split <;> simp
  | get lb_id now =>
    dsimp only [applyOp]
    unfold get_load_balancers
    cases hl : alookup lb_id s.lbs with
    | none => simp [resultStatuses, payloadStatuses]
    | some r =>
      dsimp only
      have hv := verify_goodState s lb_id false now h
      rcases hvv : verify_and_update_lb_state s lb_id false now with ⟨e, s1⟩
      rw [hvv] at hv
      cases e with
      | error e => simp [resultStatuses]
      | ok u =>
        dsimp only
        cases h2 : alookup lb_id s1.lbs with
        | none => simp [resultStatuses]
        | some r1 =>
          intro st hst
          simp only [resultStatuses, payloadStatuses, lb_without_tenant,
            List.mem_singleton] at hst
          subst hst
          exact hv _ (alookup_mem h2)
  | listLbs tenant_id now =>
    dsimp only [applyOp]
    unfold list_load_balancers
    dsimp only
    split
    · simp [resultStatuses]
    · rename_i u s1 heq
      have hv := verifyAllLogged_goodState2 heq h
      intro st hst
      simp only [resultStatuses, payloadStatuses, List.mem_map] at hst
      obtain ⟨item, ⟨p, hp, hpi⟩, his⟩ := hst
      have hpm : p ∈ s1.lbs := (List.mem_filter.mp hp).1
      have : item.status = p.2.status := by
        rw [← hpi]
        simp [prep_for_list]
      rw [← his, this]
      exact hv p hpm
  | del lb_id now =>
    dsimp only [applyOp]
    unfold del_load_balancer
    repeat' split
    all_goals simp [resultStatuses, payloadStatuses]
  | addNode gn node_list lb_id now =>
    dsimp only [applyOp]
    unfold add_node
    cases hl : alookup lb_id s.lbs with
    | none => simp [resultStatuses, payloadStatuses]
    | some r =>
      dsimp only
      rcases hvv : verify_and_update_lb_state s lb_id false now with ⟨e, s1⟩
      cases e with
      | error e => simp [resultStatuses]
      | ok u =>
        dsimp only
        cases h2 : alookup lb_id s1.lbs with
        | none => simp [resultStatuses]
        | some r1 =>
          dsimp only
          by_cases hA : r1.status ≠ Status.ACTIVE
          · rw [if_pos hA]; simp [resultStatuses, payloadStatuses]
          · rw [if_neg hA]
            split
            · split
              · simp [resultStatuses, payloadStatuses]
              · simp [resultStatuses, payloadStatuses]
            · rcases hvv2 : verify_and_update_lb_state (setLbs s1 lb_id
                  { r1 with
                    nodes := some (format_nodes_on_lb gn node_list)
                    nodeCount := (format_nodes_on_lb gn node_list).length })
                  lb_id true now with ⟨e2, s3⟩
              cases e2 with
              | error e => simp [resultStatuses]
              | ok u => simp [resultStatuses, payloadStatuses]
  | getNode lb_id node_id now =>
    dsimp only [applyOp]
    unfold get_nodes
    repeat' split
    all_goals simp [resultStatuses, payloadStatuses]
  | delNode lb_id node_id now =>
    dsimp only [applyOp]
    unfold delete_node
    repeat' split
    all_goals simp [resultStatuses, payloadStatuses]
  | listNodes lb_id now =>
    dsimp only [applyOp]
    unfold list_nodes
    repeat' split
    all_goals simp [resultStatuses, payloadStatuses]

/-! ### Claim C1 -/

/-- C1 (counterexample): the five-value status enum is violated.  A load
balancer created with the `lb_error_state` flag reaches stored status ERROR
through the first-append reconciliation of `addNodes`, and the subsequent
`get` returns a representation whose status is ERROR, outside the five-value
set claimed by the specification. -/
theorem C1_counterexample_error_status :
    ((alookup 1 errCache2.lbs).map fun r => r.status) = some Status.ERROR ∧
    (errGet.1.map fun pc => payloadStatuses pc.1) = Except.ok [Status.ERROR] ∧
    Status.ERROR ∉ fiveStatuses :=
  ⟨rfl, rfl, by decide⟩

/-- C1 (amended): in every reachable store state the status of every record
is one of the six values BUILD, ACTIVE, PENDING-UPDATE, PENDING-DELETE,
DELETED, ERROR, and every load-balancer representation a public operation
returns carries a status in this six-value set (the transient DELETING-NOW is
assigned only to a record purged within the same reconciliation and is never
stored or returned). -/
theorem C1_amended_six_status_invariant (s : CLB_Cache) (h : Reachable s) :
    (∀ p ∈ s.lbs, p.2.status ∈ sixStatuses) ∧
    ∀ op : Op, ∀ st ∈ resultStatuses (applyOp s op).1, st ∈ sixStatuses := by
  have hg := reachable_goodState h
  constructor
  · intro p hp
    exact mem_sixStatuses.mpr (hg p hp)
  · intro op st hst
    exact mem_sixStatuses.mpr (applyOp_result_good s op hg st hst)

theorem reachable_errCache2 : Reachable errCache2 :=
  Reachable.step errCache1 (Op.addNode (fun i => i) [nodeReq1] 1 0)
    (Reachable.step initCache
      (Op.create "tenant" (fun i => i) (fun i => i)
        { cInfo with metadata := some [("lb_error_state", 1)] } 1 0)
      Reachable.init)

/-- C1 (witness): the amended invariant applied to the concrete reachable
store holding the ERROR-status record. -/
theorem C1_witness :
    (∀ p ∈ errCache2.lbs, p.2.status ∈ sixStatuses) ∧
    ∀ op : Op, ∀ st ∈ resultStatuses (applyOp errCache2 op).1, st ∈ sixStatuses :=
  C1_amended_six_status_invariant errCache2 reachable_errCache2

/-! ### Claim C2 -/

/-- C2 (counterexample): on an ACTIVE record carrying both
`lb_pending_update` and `lb_pending_delete`, reconciliation with
`set_state=True` ends in PENDING-DELETE, not in the PENDING-UPDATE the
claimed highest-priority-first rule would give. -/
theorem C2_counterexample_last_flag_wins :
    ((alookup 1 puPdCache.lbs).map fun r => r.status) = some Status.ACTIVE ∧
    (alookup "lb_pending_update" ((alookup 1 puPdCache.meta).getD [])).isSome = true ∧
    (alookup "lb_pending_delete" ((alookup 1 puPdCache.meta).getD [])).isSome = true ∧
    ((alookup 1 puPdVerify.2.lbs).map fun r => r.status) = some Status.PENDING_DELETE ∧
    Status.PENDING_DELETE ≠ Status.PENDING_UPDATE :=
  ⟨rfl, rfl, rfl, rfl, by decide⟩

/-- C2 (amended): on an ACTIVE record, reconciliation with
`may_transition=true` checks the flags in the fixed sequence
`lb_pending_update`, `lb_pending_delete`, `lb_error_state`, each present flag
overwriting the status in turn, so the LAST present flag in that sequence
determines the resulting status (effective priority `lb_error_state` >
`lb_pending_delete` > `lb_pending_update`), and `updated` is stamped to
`now`. -/
theorem C2_amended_last_flag_priority (s : CLB_Cache) (lb_id now : Nat)
    (r : LBRecord) (m : Meta)
    (hl : alookup lb_id s.lbs = some r) (hr : r.status = Status.ACTIVE)
    (hm : alookup lb_id s.meta = some m) :
    (verify_and_update_lb_state s lb_id true now).1 = Except.ok () ∧
    alookup lb_id (verify_and_update_lb_state s lb_id true now).2.lbs =
      some { r with
        status :=
          if (alookup "lb_error_state" m).isSome then Status.ERROR
          else if (alookup "lb_pending_delete" m).isSome then Status.PENDING_DELETE
          else if (alookup "lb_pending_update" m).isSome then Status.PENDING_UPDATE
          else Status.ACTIVE
        updated := now } := by
  rw [verify_active_set s lb_id now r m hl hr hm]
  refine ⟨rfl, ?_⟩
  dsimp only [setLbs]
  rw [alookup_aset, if_pos rfl, hr]

/-- C2 (witness): the amended rule applied to the concrete two-flag record:
the last-checked present flag, `lb_pending_delete`, wins. -/
theorem C2_witness :
    (verify_and_update_lb_state puPdCache 1 true 0).1 = Except.ok () ∧
    alookup 1 (verify_and_update_lb_state puPdCache 1 true 0).2.lbs =
      some { rPuPd with status := Status.PENDING_DELETE, updated := 0 } :=
  C2_amended_last_flag_priority puPdCache 1 0 rPuPd mPuPd rfl rfl rfl

/-! ### Claim C3 -/

/-- C3 (counterexample): a second delete on a PENDING-DELETE load balancer
whose deletion duration (10 s) has not elapsed returns the immutable-message
payload with status code 400, not the claimed empty body with 202 (the record
does remain PENDING-DELETE). -/
theorem C3_counterexample_second_delete_400 :
    ((alookup 1 pdCache.lbs).map fun r => r.status) = some Status.PENDING_DELETE ∧
    pdSecondDel.1 = Except.ok (Payload.invalid (immutableDelMsg 1) 400, 400) ∧
    ((alookup 1 pdSecondDel.2.lbs).map fun r => r.status) = some Status.PENDING_DELETE ∧
    (Payload.invalid (immutableDelMsg 1) 400 ≠ Payload.empty ∧ (400 : Nat) ≠ 202) :=
  ⟨rfl, rfl, rfl, by decide, by decide⟩

/-- C3 (amended): calling delete on a load balancer currently in
PENDING-DELETE status returns the immutable-resource payload with status code
400 (regardless of elapsed time), and the store — hence the PENDING-DELETE
status — is left entirely unchanged. -/
theorem C3_amended_pending_delete_400 (s : CLB_Cache) (lb_id now : Nat)
    (r : LBRecord) (hl : alookup lb_id s.lbs = some r)
    (hr : r.status = Status.PENDING_DELETE) :
    del_load_balancer s lb_id now =
      (Except.ok (Payload.invalid (immutableDelMsg lb_id) 400, 400), s) := by
  unfold del_load_balancer
  rw [hl]
  dsimp only
  rw [if_pos hr]

/-- C3 (witness): the 400 response on the concrete PENDING-DELETE store. -/
theorem C3_witness :
    del_load_balancer pdCache 1 1 =
      (Except.ok (Payload.invalid (immutableDelMsg 1) 400, 400), pdCache) :=
  C3_amended_pending_delete_400 pdCache 1 1 rPd rfl rfl

/-! ### Claim C4 -/

/-- C4 (code bug): after a successful `addNodes` on a load balancer that
already has one node, the node sequence has length 2 but the stored
`nodeCount` is still 1 — the append path of `add_node` never recomputes
`nodeCount`, contradicting the claimed invariant. -/
theorem C4_nodeCount_stale_after_append :
    (c4Res.1.map fun pc => pc.2) = Except.ok 200 ∧
    ((alookup 1 c4Res.2.lbs).map fun r => ((r.nodes.getD []).length, r.nodeCount)) =
      some (2, 1) :=
  ⟨rfl, rfl⟩

/-! ### Claim C5 -/

/-- C5 (code bug): an `addNodes` batch whose two nodes share the same
(address, port), sent to a node-less ACTIVE load balancer, is accepted with
200 and stores two nodes with the identical identity pair — the duplicate
check only compares incoming nodes against existing ones. -/
theorem C5_duplicate_pair_stored :
    (c5Res.1.map fun pc => pc.2) = Except.ok 200 ∧
    ((alookup 1 c5Res.2.lbs).map fun r =>
      (r.nodes.getD []).map fun n => (n.address, n.port)) =
      some [("1.1.1.1", 80), ("1.1.1.1", 80)] :=
  ⟨rfl, rfl⟩

/-! ### Claim C8 -/

/-- C8 (code bug): `get` on a load balancer in DELETED status whose
3600-second grace period has elapsed purges the record inside the
reconciliation and then re-indexes the store, raising an uncaught KeyError
instead of returning the claimed NotFound/404 pair. -/
theorem C8_keyError_on_purged_get :
    ((alookup 1 c8Cache3.lbs).map fun r => (r.status, r.updated)) =
      some (Status.DELETED, 1) ∧
    c8Res.1 = Except.error keyError ∧
    alookup 1 c8Res.2.lbs = none :=
  ⟨rfl, rfl, rfl⟩

/-! ### Claim C6 -/

/-- C6 (confirmed): an `addNodes` call on an ACTIVE load balancer that
already has nodes, where some incoming node shares (address, port) with an
existing node, fails with the duplicate-node payload and 413, whatever the
other fields of the nodes, and leaves the store (in particular the node
list) entirely unchanged. -/
theorem C6_duplicate_node_rejected (s : CLB_Cache) (gn : Nat → Nat)
    (reqs : List NodeReq) (lb_id now : Nat) (r : LBRecord) (ns : List Node)
    (hl : alookup lb_id s.lbs = some r) (hr : r.status = Status.ACTIVE)
    (hn : r.nodes = some ns)
    (hdup : ∃ en ∈ ns, ∃ nr ∈ reqs, en.address = nr.address ∧ en.port = nr.port) :
    add_node s gn reqs lb_id now =
      (Except.ok (Payload.invalid dupMsg 413, 413), s) := by
  obtain ⟨en, hen, nr, hnr, ha, hp⟩ := hdup
  cases ns with
  | nil => simp at hen
  | cons e0 es =>
    have hany : (e0 :: es).any (fun e2 => reqs.any fun nn =>
        e2.address == nn.address && e2.port == nn.port) = true := by
      simp only [List.any_eq_true]
      refine ⟨en, hen, ⟨nr, hnr, ?_⟩⟩
      rw [ha, hp]
      simp
    unfold add_node
    rw [hl]
    dsimp only
    rw [verify_active_noset s lb_id now r hl hr]
    dsimp only
    rw [hl]
    dsimp only
    rw [if_neg (by simp [hr])]
    rw [hn]
    dsimp only
    rw [if_pos hany]

/-- C6 (witness): adding a node that repeats the (address, port) of the
stored node while changing condition, weight and type is rejected with 413
and the store is untouched. -/
theorem C6_witness :
    add_node c4Cache1 (fun i => i) [nodeReq1b] 1 5 =
      (Except.ok (Payload.invalid dupMsg 413, 413), c4Cache1) :=
  C6_duplicate_node_rejected c4Cache1 (fun i => i) [nodeReq1b] 1 5 rC4
    [⟨"1.1.1.1", "ENABLED", 80, none, none, 0, "ONLINE"⟩] rfl rfl rfl
    ⟨⟨"1.1.1.1", "ENABLED", 80, none, none, 0, "ONLINE"⟩, by simp, nodeReq1b,
      by simp, rfl, rfl⟩

/-! ### Claim C7 -/

/-- C7 (counterexample): reconciling the flag-free ACTIVE record with
`may_transition=true` at time 5 leaves the status unchanged (ACTIVE) yet
stamps `updated` from 0 to 5, so the updated timestamp does change without a
status change. -/
theorem C7_counterexample_updated_stamped :
    ((alookup 1 baseCache.lbs).map fun r => (r.status, r.updated)) =
      some (Status.ACTIVE, 0) ∧
    (alookup 1 baseCache.meta) = some [] ∧
    ((alookup 1 (verify_and_update_lb_state baseCache 1 true 5).2.lbs).map
      fun r => (r.status, r.updated)) = some (Status.ACTIVE, 5) :=
  ⟨rfl, rfl, rfl⟩

/-- C7 (amended): a successful reconciliation changes the `updated` timestamp
exactly when it evaluates an ACTIVE record with `may_transition=true` or a
PENDING-DELETE record — in those two cases `updated` is stamped to `now`
even when the status does not change — and leaves `updated` untouched in
every other case. -/
theorem C7_amended_updated_frame (s : CLB_Cache) (lb_id : Nat) (ss : Bool)
    (now : Nat) (s1 : CLB_Cache) (r r1 : LBRecord)
    (hnd : (s.lbs.map Prod.fst).Nodup)
    (hl : alookup lb_id s.lbs = some r)
    (hv : verify_and_update_lb_state s lb_id ss now = (Except.ok (), s1))
    (h1 : alookup lb_id s1.lbs = some r1) :
    r1.updated =
      if (r.status = Status.ACTIVE ∧ ss = true) ∨ r.status = Status.PENDING_DELETE
      then now else r.updated := by
  cases hr : r.status with
  | BUILD =>
    cases hm : alookup lb_id s.meta with
    | none =>
      rw [verify_build_no_meta s lb_id ss now r hl hr hm] at hv
      simp at hv
    | some m =>
      cases hf : alookup "lb_building" m with
      | none =>
        rw [verify_build_no_flag s lb_id ss now r m hl hr hm hf] at hv
        simp at hv
      | some v =>
        rw [verify_build s lb_id ss now r m v hl hr hm hf] at hv
        injection hv with hE hS
        subst hS
        dsimp only [setLbs, setMeta] at h1
        rw [alookup_aset, if_pos rfl] at h1
        injection h1 with h2
        subst h2
        simp [hr]
  | ACTIVE =>
    cases ss with
    | false =>
      rw [verify_active_noset s lb_id now r hl hr] at hv
      injection hv with hE hS
      subst hS
      rw [hl] at h1
      injection h1 with h2
      subst h2
      simp [hr]
    | true =>
      cases hm : alookup lb_id s.meta with
      | none =>
        rw [verify_active_set_no_meta s lb_id now r hl hr hm] at hv
        simp at hv
      | some m =>
        rw [verify_active_set s lb_id now r m hl hr hm] at hv
        injection hv with hE hS
        subst hS
        dsimp only [setLbs] at h1
        rw [alookup_aset, if_pos rfl] at h1
        injection h1 with h2
        subst h2
        simp [hr]
  | PENDING_UPDATE =>
    cases hm : alookup lb_id s.meta with
    | none =>
      rw [verify_pu_no_meta s lb_id ss now r hl hr hm] at hv
      simp at hv
    | some m =>
      cases hf : alookup "lb_pending_update" m with
      | none =>
        rw [verify_pu_no_flag s lb_id ss now r m hl hr hm hf] at hv
        injection hv with hE hS
        subst hS
        rw [hl] at h1
        injection h1 with h2
        subst h2
        simp [hr]
      | some v =>
        rw [verify_pu s lb_id ss now r m v hl hr hm hf] at hv
        injection hv with hE hS
        subst hS
        dsimp only [setLbs] at h1
        rw [alookup_aset, if_pos rfl] at h1
        injection h1 with h2
        subst h2
        simp [hr]
  | PENDING_DELETE =>
    cases hm : alookup lb_id s.meta with
    | none =>
      rw [verify_pd_no_meta s lb_id ss now r hl hr hm] at hv
      simp at hv
    | some m =>
      cases hf : alookup "lb_pending_delete" m with
      | none =>
        rw [verify_pd_no_flag s lb_id ss now r m hl hr hm hf] at hv
        simp at hv
      | some v =>
        rw [verify_pd s lb_id ss now r m v hl hr hm hf] at hv
        injection hv with hE hS
        subst hS
        dsimp only [setLbs, setMeta] at h1
        rw [alookup_aset, if_pos rfl] at h1
        injection h1 with h2
        subst h2
        simp [hr]
  | DELETED =>
    by_cases ht : r.updated + 3600 ≤ now
    · rw [verify_deleted_purge s lb_id ss now r hl hr ht] at hv
      injection hv with hE hS
      subst hS
      rw [alookup_aremove_self hnd] at h1
      simp at h1
    · rw [verify_deleted_stay s lb_id ss now r hl hr ht] at hv
      injection hv with hE hS
      subst hS
      dsimp only [setLbs] at h1
      rw [alookup_aset, if_pos rfl] at h1
      injection h1 with h2
      subst h2
      simp [hr]
  | ERROR =>
    rw [verify_error_status s lb_id ss now r hl hr] at hv
    injection hv with hE hS
    subst hS
    rw [hl] at h1
    injection h1 with h2
    subst h2
    simp [hr]
  | DELETING_NOW =>
    rw [verify_dnow_status s lb_id ss now r hl hr] at hv
    injection hv with hE hS
    subst hS
    rw [hl] at h1
    injection h1 with h2
    subst h2
    simp [hr]

/-- C7 (witness): the frame rule applied to the flag-free ACTIVE record
reconciled with `may_transition=true` at time 5. -/
theorem C7_witness :
    ({ rBase with updated := 5 } : LBRecord).updated =
      if (rBase.status = Status.ACTIVE ∧ true = true) ∨
          rBase.status = Status.PENDING_DELETE
      then 5 else rBase.updated :=
  C7_amended_updated_frame baseCache 1 true 5
    (verify_and_update_lb_state baseCache 1 true 5).2 rBase
    { rBase with updated := 5 } (by decide) rfl rfl rfl

/-! ### Claim C9 -/

/-- C9 (confirmed): `listNodes` on a load balancer in DELETED status whose
3600-second grace period has elapsed purges the record during the call
(re-checking the store after reconciliation) and returns the NotFound
payload with 404. -/
theorem C9_list_nodes_purged (s : CLB_Cache) (lb_id now : Nat) (r : LBRecord)
    (hnd : (s.lbs.map Prod.fst).Nodup)
    (hl : alookup lb_id s.lbs = some r) (hr : r.status = Status.DELETED)
    (ht : r.updated + 3600 ≤ now) :
    list_nodes s lb_id now =
      (Except.ok (Payload.notFound "loadbalancer", 404),
       { s with lbs := aremove lb_id s.lbs }) := by
  unfold list_nodes
  rw [hl]
  dsimp only
  rw [verify_deleted_purge s lb_id false now r hl hr ht]
  dsimp only
  rw [alookup_aremove_self hnd]

/-- C9 (witness): `listNodes` at time 3601 on the DELETED record last updated
at time 1 is answered with NotFound/404 and the record is purged. -/
theorem C9_witness :
    list_nodes c8Cache3 1 3601 =
      (Except.ok (Payload.notFound "loadbalancer", 404),
       { c8Cache3 with lbs := aremove 1 c8Cache3.lbs }) :=
  C9_list_nodes_purged c8Cache3 1 3601 rC8Del (by decide) rfl rfl (by decide)

/-! ### Claim C10 -/

/-- C10 (confirmed): `create` with an `lb_id` already present succeeds with
202 and silently replaces both the record and its behavior-flag map: the
stored entries afterwards are exactly those obtained by creating into an
empty store, so no field of the old record survives and no duplicate-id
error exists. -/
theorem C10_create_overwrites (tenant_id : String) (s : CLB_Cache)
    (gm gn : Nat → Nat) (lb_info : LBInfo) (lb_id now : Nat)
    (_hpresent : (alookup lb_id s.lbs).isSome = true) :
    (add_load_balancer tenant_id s gm gn lb_info lb_id now).1.2 = 202 ∧
    alookup lb_id (add_load_balancer tenant_id s gm gn lb_info lb_id now).2.lbs =
      alookup lb_id
        (add_load_balancer tenant_id initCache gm gn lb_info lb_id now).2.lbs ∧
    alookup lb_id (add_load_balancer tenant_id s gm gn lb_info lb_id now).2.meta =
      alookup lb_id
        (add_load_balancer tenant_id initCache gm gn lb_info lb_id now).2.meta := by
  refine ⟨rfl, ?_, ?_⟩
  · dsimp only [add_load_balancer, setLbs, setMeta]
    rw [alookup_aset, alookup_aset]
    simp
  · dsimp only [add_load_balancer, setLbs, setMeta]
    rw [alookup_aset, alookup_aset]
    simp

/-- C10 (witness): recreating id 1 over the existing `baseCache` record with
a different tenant at time 99 answers 202 and installs exactly the entries a
fresh store would receive. -/
theorem C10_witness :
    (add_load_balancer "t2" baseCache (fun i => i) (fun i => i) cInfo 1 99).1.2 = 202 ∧
    alookup 1 (add_load_balancer "t2" baseCache (fun i => i) (fun i => i) cInfo 1 99).2.lbs =
      alookup 1 (add_load_balancer "t2" initCache (fun i => i) (fun i => i) cInfo 1 99).2.lbs ∧
    alookup 1 (add_load_balancer "t2" baseCache (fun i => i) (fun i => i) cInfo 1 99).2.meta =
      alookup 1 (add_load_balancer "t2" initCache (fun i => i) (fun i => i) cInfo 1 99).2.meta :=
  C10_create_overwrites "t2" baseCache (fun i => i) (fun i => i) cInfo 1 99 rfl

end MimicLB
